import Mathlib

set_option maxRecDepth 10000

namespace JoanieIcon

/-- Fixed output path hard-coded in create_app_icon (src/create_app_icon.py line 51). -/
def iconPath : String := "/tmp/joanie_icon.svg"

/-- The constant SVG template string defined inside create_app_icon
(src/create_app_icon.py lines 12-48), transcribed byte-for-byte, the
trailing spaces of the source lines included. -/
def svg_content : String := "<?xml version=\"1.0\" encoding=\"UTF-8\"?>\n<svg width=\"1024\" height=\"1024\" viewBox=\"0 0 1024 1024\" xmlns=\"http://www.w3.org/2000/svg\">\n    <defs>\n        <linearGradient id=\"grad1\" x1=\"0%\" y1=\"0%\" x2=\"100%\" y2=\"100%\">\n            <stop offset=\"0%\" style=\"stop-color:#FF6B9D;stop-opacity:1\" />\n            <stop offset=\"50%\" style=\"stop-color:#C4E8C7;stop-opacity:1\" />\n            <stop offset=\"100%\" style=\"stop-color:#FFD93D;stop-opacity:1\" />\n        </linearGradient>\n    </defs>\n    <rect width=\"1024\" height=\"1024\" rx=\"180\" ry=\"180\" fill=\"url(#grad1)\"/>\n    \n    <!-- Art palette icon -->\n    <circle cx=\"512\" cy=\"400\" r=\"80\" fill=\"white\" opacity=\"0.9\"/>\n    <circle cx=\"480\" cy=\"380\" r=\"25\" fill=\"#FF6B9D\"/>\n    <circle cx=\"544\" cy=\"380\" r=\"25\" fill=\"#C4E8C7\"/>\n    <circle cx=\"512\" cy=\"420\" r=\"25\" fill=\"#FFD93D\"/>\n    \n    <!-- Brush -->\n    <rect x=\"620\" y=\"350\" width=\"8\" height=\"60\" fill=\"#8B4513\" rx=\"4\"/>\n    <path d=\"M624 350 Q628 340 632 350 Q628 360 624 350\" fill=\"#FF6B9D\"/>\n    \n    <!-- Stars around -->\n    <g fill=\"white\" opacity=\"0.8\">\n        <polygon points=\"200,200 210,230 240,230 215,245 225,275 200,260 175,275 185,245 160,230 190,230\" />\n        <polygon points=\"800,180 810,210 840,210 815,225 825,255 800,240 775,255 785,225 760,210 790,210\" />\n        <polygon points=\"180,800 190,830 220,830 195,845 205,875 180,860 155,875 165,845 140,830 170,830\" />\n        <polygon points=\"850,750 860,780 890,780 865,795 875,825 850,810 825,825 835,795 810,780 840,780\" />\n    </g>\n    \n    <!-- App name -->\n    <text x=\"512\" y=\"600\" font-family=\"Arial, sans-serif\" font-size=\"120\" font-weight=\"bold\" \n          text-anchor=\"middle\" fill=\"white\">Joanie</text>\n    \n    <!-- Subtitle -->\n    <text x=\"512\" y=\"680\" font-family=\"Arial, sans-serif\" font-size=\"40\" \n          text-anchor=\"middle\" fill=\"white\" opacity=\"0.9\">Artwork</text>\n</svg>"

/-- Tail of svg_content after the XML declaration, used to exhibit the prefix property. -/
def svg_tail : String := "\n<svg width=\"1024\" height=\"1024\" viewBox=\"0 0 1024 1024\" xmlns=\"http://www.w3.org/2000/svg\">\n    <defs>\n        <linearGradient id=\"grad1\" x1=\"0%\" y1=\"0%\" x2=\"100%\" y2=\"100%\">\n            <stop offset=\"0%\" style=\"stop-color:#FF6B9D;stop-opacity:1\" />\n            <stop offset=\"50%\" style=\"stop-color:#C4E8C7;stop-opacity:1\" />\n            <stop offset=\"100%\" style=\"stop-color:#FFD93D;stop-opacity:1\" />\n        </linearGradient>\n    </defs>\n    <rect width=\"1024\" height=\"1024\" rx=\"180\" ry=\"180\" fill=\"url(#grad1)\"/>\n    \n    <!-- Art palette icon -->\n    <circle cx=\"512\" cy=\"400\" r=\"80\" fill=\"white\" opacity=\"0.9\"/>\n    <circle cx=\"480\" cy=\"380\" r=\"25\" fill=\"#FF6B9D\"/>\n    <circle cx=\"544\" cy=\"380\" r=\"25\" fill=\"#C4E8C7\"/>\n    <circle cx=\"512\" cy=\"420\" r=\"25\" fill=\"#FFD93D\"/>\n    \n    <!-- Brush -->\n    <rect x=\"620\" y=\"350\" width=\"8\" height=\"60\" fill=\"#8B4513\" rx=\"4\"/>\n    <path d=\"M624 350 Q628 340 632 350 Q628 360 624 350\" fill=\"#FF6B9D\"/>\n    \n    <!-- Stars around -->\n    <g fill=\"white\" opacity=\"0.8\">\n        <polygon points=\"200,200 210,230 240,230 215,245 225,275 200,260 175,275 185,245 160,230 190,230\" />\n        <polygon points=\"800,180 810,210 840,210 815,225 825,255 800,240 775,255 785,225 760,210 790,210\" />\n        <polygon points=\"180,800 190,830 220,830 195,845 205,875 180,860 155,875 165,845 140,830 170,830\" />\n        <polygon points=\"850,750 860,780 890,780 865,795 875,825 850,810 825,825 835,795 810,780 840,780\" />\n    </g>\n    \n    <!-- App name -->\n    <text x=\"512\" y=\"600\" font-family=\"Arial, sans-serif\" font-size=\"120\" font-weight=\"bold\" \n          text-anchor=\"middle\" fill=\"white\">Joanie</text>\n    \n    <!-- Subtitle -->\n    <text x=\"512\" y=\"680\" font-family=\"Arial, sans-serif\" font-size=\"40\" \n          text-anchor=\"middle\" fill=\"white\" opacity=\"0.9\">Artwork</text>\n</svg>"

/-- Part of svg_content before its occurrence of the substring Joanie. -/
def svg_pre : String := "<?xml version=\"1.0\" encoding=\"UTF-8\"?>\n<svg width=\"1024\" height=\"1024\" viewBox=\"0 0 1024 1024\" xmlns=\"http://www.w3.org/2000/svg\">\n    <defs>\n        <linearGradient id=\"grad1\" x1=\"0%\" y1=\"0%\" x2=\"100%\" y2=\"100%\">\n            <stop offset=\"0%\" style=\"stop-color:#FF6B9D;stop-opacity:1\" />\n            <stop offset=\"50%\" style=\"stop-color:#C4E8C7;stop-opacity:1\" />\n            <stop offset=\"100%\" style=\"stop-color:#FFD93D;stop-opacity:1\" />\n        </linearGradient>\n    </defs>\n    <rect width=\"1024\" height=\"1024\" rx=\"180\" ry=\"180\" fill=\"url(#grad1)\"/>\n    \n    <!-- Art palette icon -->\n    <circle cx=\"512\" cy=\"400\" r=\"80\" fill=\"white\" opacity=\"0.9\"/>\n    <circle cx=\"480\" cy=\"380\" r=\"25\" fill=\"#FF6B9D\"/>\n    <circle cx=\"544\" cy=\"380\" r=\"25\" fill=\"#C4E8C7\"/>\n    <circle cx=\"512\" cy=\"420\" r=\"25\" fill=\"#FFD93D\"/>\n    \n    <!-- Brush -->\n    <rect x=\"620\" y=\"350\" width=\"8\" height=\"60\" fill=\"#8B4513\" rx=\"4\"/>\n    <path d=\"M624 350 Q628 340 632 350 Q628 360 624 350\" fill=\"#FF6B9D\"/>\n    \n    <!-- Stars around -->\n    <g fill=\"white\" opacity=\"0.8\">\n        <polygon points=\"200,200 210,230 240,230 215,245 225,275 200,260 175,275 185,245 160,230 190,230\" />\n        <polygon points=\"800,180 810,210 840,210 815,225 825,255 800,240 775,255 785,225 760,210 790,210\" />\n        <polygon points=\"180,800 190,830 220,830 195,845 205,875 180,860 155,875 165,845 140,830 170,830\" />\n        <polygon points=\"850,750 860,780 890,780 865,795 875,825 850,810 825,825 835,795 810,780 840,780\" />\n    </g>\n    \n    <!-- App name -->\n    <text x=\"512\" y=\"600\" font-family=\"Arial, sans-serif\" font-size=\"120\" font-weight=\"bold\" \n          text-anchor=\"middle\" fill=\"white\">"

/-- Part of svg_content after its occurrence of the substring Joanie. -/
def svg_post : String := "</text>\n    \n    <!-- Subtitle -->\n    <text x=\"512\" y=\"680\" font-family=\"Arial, sans-serif\" font-size=\"40\" \n          text-anchor=\"middle\" fill=\"white\" opacity=\"0.9\">Artwork</text>\n</svg>"

/-- The I/O failures the script can hit at the with-statement: the open of
the target path failing (unwritable directory), or the write failing after
a successful open (full filesystem). -/
inductive IOErr
  | openFailed
  | writeFailed
  deriving DecidableEq, Repr

/-- Outcome of one run of create_app_icon: the filesystem afterwards (a map
from path to optional contents), the lines printed to standard output, and
either the returned value or the propagated I/O error. -/
structure RunOutcome where
  fs : String -> Option String
  stdout : List String
  result : Except IOErr Bool

/-- The seven console lines produced by the six print calls of
src/create_app_icon.py lines 54-59; the third call prints a string that
begins with a newline, so it contributes an empty line followed by a text
line. -/
def printedLines : List String :=
  [ "Created SVG icon at /tmp/joanie_icon.svg"
  , "SVG content created successfully!"
  , ""
  , "To create PNG from SVG, you can use:"
  , "1. Online converter (recommended for this step)"
  , "2. Install ImageMagick: brew install imagemagick"
  , "3. Then run: convert /tmp/joanie_icon.svg /tmp/joanie_icon.png" ]

/-- Shallow embedding of create_app_icon (src/create_app_icon.py lines 8-61).
The parameters mirror the two ways the with-statement at lines 51-52 can
fail: openOk models whether open(iconPath, w-mode) succeeds, writeOk whether
the subsequent f.write succeeds. A successful open truncates whatever file
exists at iconPath before anything is written; so if the write then raises,
the file is left truncated (empty). Only when both steps succeed is the file
filled with svg_content, the seven status lines printed, and True returned.
If the open itself fails, no file is created or modified. Either error
propagates: the function body has no try/except, and all prints come after
the with-block. -/
def create_app_icon (openOk writeOk : Bool) (fs : String -> Option String) : RunOutcome :=
  if openOk then
    if writeOk then
      RunOutcome.mk (fun p => if p = iconPath then some svg_content else fs p)
        printedLines (Except.ok true)
    else
      RunOutcome.mk (fun p => if p = iconPath then some "" else fs p)
        [] (Except.error IOErr.writeFailed)
  else
    RunOutcome.mk fs [] (Except.error IOErr.openFailed)

/-- Shallow embedding of the module entry point (src/create_app_icon.py
lines 63-64): it calls create_app_icon, discards the returned value, and
catches nothing, so an error surfaces unchanged. -/
def main_entry (openOk writeOk : Bool) (fs : String -> Option String) :
    (String -> Option String) × List String × Except IOErr Unit :=
  ((create_app_icon openOk writeOk fs).fs, (create_app_icon openOk writeOk fs).stdout,
    (create_app_icon openOk writeOk fs).result.map fun _ => ())

/-- Resource events of one run, for the handle-lifetime claims. -/
inductive Ev
  | openFile
  | writeData
  | closeFile
  | raiseErr
  deriving DecidableEq, Repr

/-- Event trace of the file-handling part of create_app_icon, modelling the
scoped acquisition of the with-statement at src/create_app_icon.py lines
51-52: if the open succeeds, the handle is closed before control leaves the
statement, whether or not the write raises; if the open itself fails, no
handle ever exists. -/
def create_app_icon_trace (openOk writeOk : Bool) : List Ev :=
  if openOk then
    if writeOk then [Ev.openFile, Ev.writeData, Ev.closeFile]
    else [Ev.openFile, Ev.closeFile, Ev.raiseErr]
  else [Ev.raiseErr]

/-- C1: for every successful run of create_app_icon, on return a file exists
at the fixed path iconPath whose contents are byte-for-byte equal to the
constant SVG template svg_content. -/
theorem C1_success_file_equals_template (openOk writeOk : Bool)
    (fs : String -> Option String)
    (h : (create_app_icon openOk writeOk fs).result = Except.ok true) :
    (create_app_icon openOk writeOk fs).fs iconPath = some svg_content := by
  cases openOk with
  | false => simp [create_app_icon] at h
  | true =>
      cases writeOk with
      | false => simp [create_app_icon] at h
      | true => rfl

/-- Witness for C1 at a concrete successful run starting from the empty
filesystem. -/
theorem C1_success_file_equals_template_witness :
    (create_app_icon true true (fun _ => none)).result = Except.ok true ∧
    (create_app_icon true true (fun _ => none)).fs iconPath = some svg_content :=
  ⟨rfl, C1_success_file_equals_template true true (fun _ => none) rfl⟩

/-- C2 as stated is false: when the open succeeds and the write then fails,
the pre-existing file at iconPath has already been truncated by the
w-mode open, so it IS modified even though the run ends in an I/O error.
Concretely, starting from a filesystem holding a file with contents old at
iconPath, the failing run leaves different contents there. -/
theorem C2_write_error_modifies_file_counterexample :
    (create_app_icon true false
        (fun p => if p = iconPath then some "old" else none)).result =
      Except.error IOErr.writeFailed ∧
    ¬ ((create_app_icon true false
        (fun p => if p = iconPath then some "old" else none)).fs iconPath =
      some "old") := by
  exact ⟨rfl, by decide⟩

/-- C2 (amended): if opening the target path for writing fails with an I/O
error (e.g., the target directory is non-writable), then no file is created
and no existing file at that path is modified: the whole filesystem is
unchanged and the run ends in the open error. -/
theorem C2_open_error_leaves_fs_unchanged (writeOk : Bool)
    (fs : String -> Option String) :
    (create_app_icon false writeOk fs).fs = fs ∧
    (create_app_icon false writeOk fs).result = Except.error IOErr.openFailed :=
  ⟨rfl, rfl⟩

/-- C3 as stated is false: on a writable run the console output has seven
lines, not exactly three. -/
theorem C3_console_three_lines_counterexample :
    ¬ ((create_app_icon true true (fun _ => none)).stdout.length = 3) := by
  decide

/-- C3 (amended): for every run with the directory writable, the resulting
file contents start with the XML declaration and contain the substring
Joanie, and the console output consists of exactly seven lines, beginning
with a line that starts with the text Created SVG icon at. -/
theorem C3_writable_run_amended (fs : String -> Option String) :
    (∃ t, (create_app_icon true true fs).fs iconPath =
        some ("<?xml version=\"1.0\" encoding=\"UTF-8\"?>" ++ t)) ∧
    (∃ a b, (create_app_icon true true fs).fs iconPath = some (a ++ "Joanie" ++ b)) ∧
    (create_app_icon true true fs).stdout.length = 7 ∧
    (∃ r, (create_app_icon true true fs).stdout.headD "" = "Created SVG icon at" ++ r) := by
  refine ⟨⟨svg_tail, ?_⟩, ⟨svg_pre, svg_post, ?_⟩, rfl, ⟨" /tmp/joanie_icon.svg", rfl⟩⟩
  · rfl
  · rfl

/-- C4: the confirmation line is printed if and only if the write succeeds;
on either failure mode nothing at all is printed, since every print comes
after the with-block. -/
theorem C4_confirmation_iff_success (openOk writeOk : Bool)
    (fs : String -> Option String) :
    ((create_app_icon openOk writeOk fs).stdout.contains
        "Created SVG icon at /tmp/joanie_icon.svg") = true ↔
    (create_app_icon openOk writeOk fs).result = Except.ok true := by
  cases openOk with
  | false => exact ⟨fun h => Bool.noConfusion h, fun h => Except.noConfusion h⟩
  | true =>
      cases writeOk with
      | false => exact ⟨fun h => Bool.noConfusion h, fun h => Except.noConfusion h⟩
      | true => exact ⟨fun _ => rfl, fun _ => rfl⟩

/-- C5: an I/O error raised at the with-statement is caught nowhere, neither
in create_app_icon nor in the module entry point: whatever error the run
ends in surfaces unchanged through main_entry. -/
theorem C5_error_propagates_uncaught (openOk writeOk : Bool)
    (fs : String -> Option String) (e : IOErr)
    (h : (create_app_icon openOk writeOk fs).result = Except.error e) :
    (main_entry openOk writeOk fs).2.2 = Except.error e := by
  simp [main_entry, h]
  rfl

/-- Witness for C5 at a concrete run whose open fails. -/
theorem C5_error_propagates_uncaught_witness :
    (create_app_icon false true (fun _ => none)).result =
      Except.error IOErr.openFailed ∧
    (main_entry false true (fun _ => none)).2.2 = Except.error IOErr.openFailed :=
  ⟨rfl, C5_error_propagates_uncaught false true (fun _ => none) IOErr.openFailed rfl⟩

/-- C6: running create_app_icon twice in succession is idempotent on the
output file: the second run overwrites the first and the contents at
iconPath are byte-identical after both runs. -/
theorem C6_idempotent (fs : String -> Option String) :
    (create_app_icon true true (create_app_icon true true fs).fs).fs iconPath =
      (create_app_icon true true fs).fs iconPath ∧
    (create_app_icon true true (create_app_icon true true fs).fs).fs iconPath =
      some svg_content :=
  ⟨rfl, rfl⟩

/-- C7: the only filesystem effect of create_app_icon is at iconPath: every
other path is left exactly as it was, on the success path and on both error
paths alike. -/
theorem C7_frame_only_icon_path (openOk writeOk : Bool)
    (fs : String -> Option String) (p : String) (h : p ≠ iconPath) :
    (create_app_icon openOk writeOk fs).fs p = fs p := by
  cases openOk with
  | false => rfl
  | true =>
      cases writeOk with
      | false => exact if_neg h
      | true => exact if_neg h

/-- Witness for C7 at a concrete distinct path. -/
theorem C7_frame_only_icon_path_witness :
    ("/etc/passwd" ≠ iconPath) ∧
    (create_app_icon true true (fun _ => none)).fs "/etc/passwd" = none :=
  ⟨by decide, C7_frame_only_icon_path true true (fun _ => none) "/etc/passwd" (by decide)⟩

/-- C8: on every exit path of create_app_icon, successful or erroring, each
file handle that was opened is closed before control leaves the operation:
the trace holds as many close events as open events. -/
theorem C8_handle_closed_on_all_paths (openOk writeOk : Bool) :
    (create_app_icon_trace openOk writeOk).count Ev.closeFile =
      (create_app_icon_trace openOk writeOk).count Ev.openFile := by
  cases openOk <;> cases writeOk <;> decide

/-- C9: create_app_icon is deterministic: any two successful runs produce
identical file contents at iconPath and identical console output, whatever
the prior filesystem state. -/
theorem C9_deterministic (fs1 fs2 : String -> Option String) :
    (create_app_icon true true fs1).fs iconPath =
      (create_app_icon true true fs2).fs iconPath ∧
    (create_app_icon true true fs1).stdout = (create_app_icon true true fs2).stdout :=
  ⟨rfl, rfl⟩

/-- C10: whenever create_app_icon returns normally, the returned value is
the boolean True; no code path returns any other value. -/
theorem C10_returns_true (openOk writeOk : Bool) (fs : String -> Option String)
    (b : Bool) (h : (create_app_icon openOk writeOk fs).result = Except.ok b) :
    b = true := by
  cases openOk with
  | false => simp [create_app_icon] at h
  | true =>
      cases writeOk with
      | false => simp [create_app_icon] at h
      | true =>
          have h2 : Except.ok (ε := IOErr) true = Except.ok b := h
          injection h2 with h3
          exact h3.symm

/-- Witness for C10 at a concrete successful run. -/
theorem C10_returns_true_witness :
    (create_app_icon true true (fun _ => none)).result = Except.ok true ∧ true = true :=
  ⟨rfl, C10_returns_true true true (fun _ => none) true rfl⟩

end JoanieIcon
